import Mathlib

/-!
Shallow embedding of the crypto-chart-analyzer core: the technical-indicator
engine (`calculateTechnicalIndicators` and its per-indicator helpers) and the
rule-based setup generator (`performTechnicalAnalysis`, `calculateConfidence`).

Prices are modelled as exact rationals (`ℚ`).  The one place the source uses
an irrational operation, `Math.sqrt` in the Bollinger-band computation, is
modelled with `Real.sqrt`, so the Bollinger fields (and the price levels of
the generated setup, which mix in Bollinger values) live in `ℝ`.

JavaScript array reads `a[i]` are modelled with `List.getD i 0`; the code
only ever reads in bounds for non-empty input (this is proved below via the
`...Checked` variants, which model each read with `List.get?` and propagate
out-of-range reads as `none`).
-/

/-- One OHLCV candle (`CandlestickData` in the source).  The `open` field is
renamed `openPrice` because `open` is a reserved word in Lean. -/
structure CandlestickData where
  timestamp : ℤ
  openPrice : ℚ
  high : ℚ
  low : ℚ
  close : ℚ
  volume : ℚ
deriving DecidableEq

/-- The MACD triple returned by `calculateMACD`. -/
structure MACDResult where
  macd : ℚ
  signal : ℚ
  histogram : ℚ
deriving DecidableEq

/-- Bollinger bands; real-valued because the source takes a square root. -/
structure BollingerBands where
  upper : ℝ
  middle : ℝ
  lower : ℝ

/-- The indicator bundle returned by `calculateTechnicalIndicators`. -/
structure TechnicalIndicators where
  rsi : ℚ
  macd : MACDResult
  sma20 : ℚ
  sma50 : ℚ
  ema20 : ℚ
  bollinger : BollingerBands
  support : ℚ
  resistance : ℚ

/-- JavaScript `arr.slice(-n)`: the last `min n arr.length` elements.
(For `n = 0` JavaScript returns the whole array; the engine only uses
positive `n`, where `drop (length - n)` coincides with `slice(-n)`.) -/
def lastN {α : Type} (n : ℕ) (l : List α) : List α := l.drop (l.length - n)

/-- JavaScript `Math.min(...l)` for a non-empty spread; `Math.min()` of an
empty spread is `Infinity`, modelled here by an arbitrary default `0`
(the engine only applies it to non-empty lists, as proved below). -/
def mathMin : List ℚ → ℚ
  | [] => 0
  | x :: xs => xs.foldl min x

/-- JavaScript `Math.max(...l)`, same conventions as `mathMin`. -/
def mathMax : List ℚ → ℚ
  | [] => 0
  | x :: xs => xs.foldl max x

/-- `calculateRSI(prices, period)`.  The final branch on `avgLoss = 0`
models IEEE division: the source computes `rs = avgGain/avgLoss` and
`100 - 100/(1+rs)` directly, and for `avgLoss = 0` (with a positive gain)
the float quotient is `+Infinity`, collapsing the result to `100`; exact
rational arithmetic has no infinity, so that limit value is taken
explicitly.  (The doubly degenerate sub-case `avgGain = avgLoss = 0`
yields `NaN` in floats and is not distinguished here.) -/
def calculateRSI (prices : List ℚ) (period : ℕ) : ℚ :=
  if prices.length < period + 1 then 50
  else
    let gl : ℚ × ℚ := (List.range period).foldl
      (fun gl j =>
        let change := prices.getD (prices.length - (j + 1)) 0
          - prices.getD (prices.length - (j + 1) - 1) 0
        if change > 0 then (gl.1 + change, gl.2) else (gl.1, gl.2 - change))
      (0, 0)
    let avgGain := gl.1 / (period : ℚ)
    let avgLoss := gl.2 / (period : ℚ)
    if avgLoss = 0 then 100
    else 100 - 100 / (1 + avgGain / avgLoss)

/-- `calculateSMA(prices, period)`: mean of the last `period` closes, with
the most recent close (`prices[prices.length - 1]`) as short-history
fallback. -/
def calculateSMA (prices : List ℚ) (period : ℕ) : ℚ :=
  if prices.length < period then prices.getD (prices.length - 1) 0
  else (lastN period prices).foldl (· + ·) 0 / (period : ℚ)

/-- `calculateEMA(prices, period)`: seeded with the SMA of the first
`period` elements (`prices.slice(0, period)`), then folded forward over
the remaining elements in chronological order. -/
def calculateEMA (prices : List ℚ) (period : ℕ) : ℚ :=
  if prices.length < period then prices.getD (prices.length - 1) 0
  else
    let multiplier : ℚ := 2 / ((period : ℚ) + 1)
    (List.range' period (prices.length - period)).foldl
      (fun ema i => prices.getD i 0 * multiplier + ema * (1 - multiplier))
      (calculateSMA (prices.take period) period)

/-- `calculateMACD(prices)`: the signal line is the EMA of the one-element
history `[macd]` (the source's `// Simplified for demo`). -/
def calculateMACD (prices : List ℚ) : MACDResult :=
  let ema12 := calculateEMA prices 12
  let ema26 := calculateEMA prices 26
  let macd := ema12 - ema26
  let macdHistory := [macd]
  let signal := calculateEMA macdHistory 9
  let histogram := macd - signal
  ⟨macd, signal, histogram⟩

/-- `calculateBollingerBands(prices, period, stdDev)`: population variance
of the last `period` closes around the SMA, square-rooted. -/
noncomputable def calculateBollingerBands (prices : List ℚ) (period : ℕ)
    (stdDev : ℚ) : BollingerBands :=
  let sma := calculateSMA prices period
  let recentPrices := lastN period prices
  let variance :=
    recentPrices.foldl (fun sum price => sum + (price - sma) ^ 2) 0 / (period : ℚ)
  let standardDeviation := Real.sqrt (variance : ℝ)
  ⟨(sma : ℝ) + standardDeviation * (stdDev : ℚ),
   (sma : ℝ),
   (sma : ℝ) - standardDeviation * (stdDev : ℚ)⟩

/-- `calculateTechnicalIndicators(candlesticks)`: the indicator-engine
entry point (`computeIndicators` in the behavioural description). -/
noncomputable def calculateTechnicalIndicators
    (candlesticks : List CandlestickData) : TechnicalIndicators :=
  let closes := candlesticks.map (·.close)
  let highs := candlesticks.map (·.high)
  let lows := candlesticks.map (·.low)
  let rsi := calculateRSI closes 14
  let sma20 := calculateSMA closes 20
  let sma50 := calculateSMA closes 50
  let ema20 := calculateEMA closes 20
  let macd := calculateMACD closes
  let bollinger := calculateBollingerBands closes 20 2
  let support := mathMin (lastN 20 lows)
  let resistance := mathMax (lastN 20 highs)
  ⟨rsi, macd, sma20, sma50, ema20, bollinger, support, resistance⟩

/-- Trend classification of a setup. -/
inductive Trend where
  | bullish
  | bearish
  | sideways
deriving DecidableEq

/-- The record computed by `performTechnicalAnalysis` (the setup generator's
numeric output; the presentational `reasoning` strings are elided). -/
structure AnalysisOutcome where
  entry : ℝ
  stopLoss : ℝ
  takeProfit1 : ℝ
  takeProfit2 : ℝ
  confidence : ℚ
  trend : Trend
  riskReward : ℝ

/-- `calculateConfidence(scores)`: sum the checklist scores, clamp to
`[25, 95]` via `Math.min(95, Math.max(25, total))`. -/
def calculateConfidence (scores : List ℚ) : ℚ :=
  let totalScore := scores.foldl (fun sum score => sum + score) 0
  min 95 (max 25 totalScore)

/-- The trend-classification if/else chain at the top of
`performTechnicalAnalysis`. -/
def determineTrend (currentPrice : ℚ) (ind : TechnicalIndicators) : Trend :=
  if currentPrice > ind.sma20 ∧ ind.sma20 > ind.sma50
      ∧ ind.macd.macd > ind.macd.signal then Trend.bullish
  else if currentPrice < ind.sma20 ∧ ind.sma20 < ind.sma50
      ∧ ind.macd.macd < ind.macd.signal then Trend.bearish
  else Trend.sideways

/-- Packaging of a branch's levels into the returned record, including the
shared final line `riskReward = |takeProfit1 - entry| / |entry - stopLoss|`.
(Real division by zero is `0` in this embedding; IEEE floats give
`Infinity`/`NaN` there — no branch of the source guards against it.) -/
noncomputable def mkSetup (entry stopLoss takeProfit1 takeProfit2 : ℝ)
    (confidence : ℚ) (trend : Trend) : AnalysisOutcome :=
  ⟨entry, stopLoss, takeProfit1, takeProfit2, confidence, trend,
   |takeProfit1 - entry| / |entry - stopLoss|⟩

/-- `performTechnicalAnalysis(marketData, indicators)` — the setup generator
(`generateSetup` in the behavioural description).  The source reads only
`marketData.price`, passed here directly as `currentPrice`.  Note the
ternaries of the final (sideways) branch still test `trend === 'bullish'`,
which is always false there. -/
noncomputable def performTechnicalAnalysis (currentPrice : ℚ)
    (ind : TechnicalIndicators) : AnalysisOutcome :=
  let trend := determineTrend currentPrice ind
  if trend = Trend.bullish then
    let entry : ℝ := ((currentPrice * 1.002 : ℚ) : ℝ)
    let stopLoss : ℝ :=
      max (max ((ind.support : ℚ) : ℝ) ind.bollinger.lower)
        ((currentPrice * 0.95 : ℚ) : ℝ)
    let takeProfit1 : ℝ :=
      min (min ((ind.resistance : ℚ) : ℝ) ind.bollinger.upper)
        ((currentPrice * 1.08 : ℚ) : ℝ)
    let takeProfit2 : ℝ := ((currentPrice * 1.15 : ℚ) : ℝ)
    let confidence := calculateConfidence
      [if ind.rsi < 70 then 20 else 0,
       if ind.macd.macd > ind.macd.signal then 25 else 0,
       if currentPrice > ind.sma20 then 20 else 0,
       if ind.sma20 > ind.sma50 then 15 else 0,
       if ((currentPrice : ℚ) : ℝ) > ind.bollinger.middle then 20 else 0]
    mkSetup entry stopLoss takeProfit1 takeProfit2 confidence trend
  else if trend = Trend.bearish then
    let entry : ℝ := ((currentPrice * 0.998 : ℚ) : ℝ)
    let stopLoss : ℝ :=
      min (min ((ind.resistance : ℚ) : ℝ) ind.bollinger.upper)
        ((currentPrice * 1.05 : ℚ) : ℝ)
    let takeProfit1 : ℝ :=
      max (max ((ind.support : ℚ) : ℝ) ind.bollinger.lower)
        ((currentPrice * 0.92 : ℚ) : ℝ)
    let takeProfit2 : ℝ := ((currentPrice * 0.85 : ℚ) : ℝ)
    let confidence := calculateConfidence
      [if ind.rsi > 30 then 20 else 0,
       if ind.macd.macd < ind.macd.signal then 25 else 0,
       if currentPrice < ind.sma20 then 20 else 0,
       if ind.sma20 < ind.sma50 then 15 else 0,
       if ((currentPrice : ℚ) : ℝ) < ind.bollinger.middle then 20 else 0]
    mkSetup entry stopLoss takeProfit1 takeProfit2 confidence trend
  else
    let entry : ℝ := ((currentPrice : ℚ) : ℝ)
    let stopLoss : ℝ :=
      if trend = Trend.bullish then ((ind.support : ℚ) : ℝ)
      else ((ind.resistance : ℚ) : ℝ)
    let takeProfit1 : ℝ :=
      if trend = Trend.bullish then ((ind.resistance : ℚ) : ℝ)
      else ((ind.support : ℚ) : ℝ)
    let takeProfit2 : ℝ :=
      if trend = Trend.bullish then ((ind.resistance * 1.02 : ℚ) : ℝ)
      else ((ind.support * 0.98 : ℚ) : ℝ)
    let confidence : ℚ := 45
    mkSetup entry stopLoss takeProfit1 takeProfit2 confidence trend

/-!
`...Checked` variants: the same computations with every JavaScript array
read modelled as `List.get?` (so an out-of-bounds read — `undefined` in
JavaScript — surfaces as `none`), and the empty `Math.min`/`Math.max`
spread surfacing as `none` as well.  The refinement theorem for the
never-fail policy states that on any non-empty series the checked engine
returns `some` of the unchecked result.
-/

/-- `calculateRSI` with checked reads. -/
def calculateRSIChecked (prices : List ℚ) (period : ℕ) : Option ℚ :=
  if prices.length < period + 1 then some 50
  else do
    let gl ← (List.range period).foldl
      (fun acc j => do
        let gl ← acc
        let a ← prices.get? (prices.length - (j + 1))
        let b ← prices.get? (prices.length - (j + 1) - 1)
        let change := a - b
        if change > 0 then pure (gl.1 + change, gl.2)
        else pure (gl.1, gl.2 - change))
      (pure ((0 : ℚ), (0 : ℚ)))
    let avgGain := gl.1 / (period : ℚ)
    let avgLoss := gl.2 / (period : ℚ)
    if avgLoss = 0 then pure 100
    else pure (100 - 100 / (1 + avgGain / avgLoss))

/-- `calculateSMA` with checked reads. -/
def calculateSMAChecked (prices : List ℚ) (period : ℕ) : Option ℚ :=
  if prices.length < period then prices.get? (prices.length - 1)
  else some ((lastN period prices).foldl (· + ·) 0 / (period : ℚ))

/-- `calculateEMA` with checked reads. -/
def calculateEMAChecked (prices : List ℚ) (period : ℕ) : Option ℚ :=
  if prices.length < period then prices.get? (prices.length - 1)
  else
    let multiplier : ℚ := 2 / ((period : ℚ) + 1)
    do
      let seed ← calculateSMAChecked (prices.take period) period
      (List.range' period (prices.length - period)).foldl
        (fun acc i => do
          let ema ← acc
          let p ← prices.get? i
          pure (p * multiplier + ema * (1 - multiplier)))
        (pure seed)

/-- `calculateMACD` with checked reads. -/
def calculateMACDChecked (prices : List ℚ) : Option MACDResult := do
  let ema12 ← calculateEMAChecked prices 12
  let ema26 ← calculateEMAChecked prices 26
  let macd := ema12 - ema26
  let signal ← calculateEMAChecked [macd] 9
  pure ⟨macd, signal, macd - signal⟩

/-- `calculateBollingerBands` with checked reads. -/
noncomputable def calculateBollingerBandsChecked (prices : List ℚ)
    (period : ℕ) (stdDev : ℚ) : Option BollingerBands := do
  let sma ← calculateSMAChecked prices period
  let recentPrices := lastN period prices
  let variance :=
    recentPrices.foldl (fun sum price => sum + (price - sma) ^ 2) 0 / (period : ℚ)
  let standardDeviation := Real.sqrt (variance : ℝ)
  pure ⟨(sma : ℝ) + standardDeviation * (stdDev : ℚ),
        (sma : ℝ),
        (sma : ℝ) - standardDeviation * (stdDev : ℚ)⟩

/-- `Math.min(...l)` that reports the empty spread instead of `Infinity`. -/
def mathMinChecked : List ℚ → Option ℚ
  | [] => none
  | x :: xs => some (xs.foldl min x)

/-- `Math.max(...l)` that reports the empty spread. -/
def mathMaxChecked : List ℚ → Option ℚ
  | [] => none
  | x :: xs => some (xs.foldl max x)

/-- `calculateTechnicalIndicators` with checked reads. -/
noncomputable def calculateTechnicalIndicatorsChecked
    (candlesticks : List CandlestickData) : Option TechnicalIndicators := do
  let closes := candlesticks.map (·.close)
  let highs := candlesticks.map (·.high)
  let lows := candlesticks.map (·.low)
  let rsi ← calculateRSIChecked closes 14
  let sma20 ← calculateSMAChecked closes 20
  let sma50 ← calculateSMAChecked closes 50
  let ema20 ← calculateEMAChecked closes 20
  let macd ← calculateMACDChecked closes
  let bollinger ← calculateBollingerBandsChecked closes 20 2
  let support ← mathMinChecked (lastN 20 lows)
  let resistance ← mathMaxChecked (lastN 20 highs)
  pure ⟨rsi, macd, sma20, sma50, ema20, bollinger, support, resistance⟩

/-! Helper lemmas shared by the verification theorems. -/

/-- The EMA of a one-element history with period 9 hits the short-history
fallback and returns the element itself. -/
theorem calculateEMA_singleton (x : ℚ) : calculateEMA [x] 9 = x := by
  simp [calculateEMA]

/-- The MACD signal line always equals the MACD value. -/
theorem calculateMACD_signal_eq (prices : List ℚ) :
    (calculateMACD prices).signal = (calculateMACD prices).macd := by
  simp [calculateMACD, calculateEMA_singleton]

/-- The MACD histogram always vanishes. -/
theorem calculateMACD_histogram_eq_zero (prices : List ℚ) :
    (calculateMACD prices).histogram = 0 := by
  simp [calculateMACD, calculateEMA_singleton]

/-- When a bundle has `macd = signal`, both strict MACD comparisons fail and
the trend classifier lands in its final (sideways) branch. -/
theorem determineTrend_of_macd_eq (p : ℚ) (ind : TechnicalIndicators)
    (h : ind.macd.macd = ind.macd.signal) :
    determineTrend p ind = Trend.sideways := by
  unfold determineTrend
  rw [if_neg, if_neg]
  · rintro ⟨-, -, hlt⟩
    rw [h] at hlt
    exact lt_irrefl _ hlt
  · rintro ⟨-, -, hgt⟩
    rw [h] at hgt
    exact lt_irrefl _ hgt

/-- The trend field of the generated setup is the classifier's verdict. -/
theorem performTechnicalAnalysis_trend (p : ℚ) (ind : TechnicalIndicators) :
    (performTechnicalAnalysis p ind).trend = determineTrend p ind := by
  unfold performTechnicalAnalysis
  cases h : determineTrend p ind <;> simp [h, mkSetup]

/-- Closed form of the sideways branch of the setup generator: the dead
`trend === 'bullish'` ternaries resolve to their else arms. -/
theorem performTechnicalAnalysis_sideways (p : ℚ) (ind : TechnicalIndicators)
    (h : determineTrend p ind = Trend.sideways) :
    performTechnicalAnalysis p ind =
      mkSetup ((p : ℚ) : ℝ) ((ind.resistance : ℚ) : ℝ) ((ind.support : ℚ) : ℝ)
        ((ind.support * 0.98 : ℚ) : ℝ) 45 Trend.sideways := by
  unfold performTechnicalAnalysis
  simp [h]

/-- `calculateConfidence` lands in `[25, 95]` whatever the checklist says. -/
theorem calculateConfidence_bounds (scores : List ℚ) :
    25 ≤ calculateConfidence scores ∧ calculateConfidence scores ≤ 95 := by
  unfold calculateConfidence
  constructor
  · exact le_min (by norm_num) (le_max_left _ _)
  · exact min_le_left _ _

/-- The JavaScript read `l[l.length - 1]` (modelled with a default) is the
last element of any non-empty list. -/
theorem getD_length_sub_one {α : Type} [Inhabited α] (l : List α) (d : α)
    (h : l ≠ []) : l.getD (l.length - 1) d = l.getLast h := by
  induction l with
  | nil => exact absurd rfl h
  | cons a t ih =>
    cases t with
    | nil => rfl
    | cons b u =>
      have ht : b :: u ≠ [] := List.cons_ne_nil b u
      rw [List.getLast_cons ht, ← ih ht]
      simp [List.getD_cons_succ]

/-- An in-bounds checked read returns the defaulted read. -/
theorem get?_eq_some_getD (l : List ℚ) (n : ℕ) (h : n < l.length) :
    l.get? n = some (l.getD n 0) := by
  simp [List.get?_eq_get h, List.getD_eq_getElem?_getD,
    List.getElem?_eq_getElem h, List.get_eq_getElem]

/-- `slice(-n)` of a non-empty list is non-empty when `0 < n`. -/
theorem lastN_ne_nil {α : Type} (n : ℕ) (l : List α) (hn : 0 < n)
    (h : l ≠ []) : lastN n l ≠ [] := by
  have hlen : 0 < l.length := List.length_pos.mpr h
  have : 0 < (lastN n l).length := by
    unfold lastN
    rw [List.length_drop]
    omega
  exact List.ne_nil_of_length_pos this

/-- `slice(-n)` commutes with `map`. -/
theorem lastN_map {α β : Type} (n : ℕ) (f : α → β) (l : List α) :
    lastN n (l.map f) = (lastN n l).map f := by
  unfold lastN
  rw [List.length_map, List.map_drop]

/-- Elements of `slice(-n)` come from the original list. -/
theorem mem_of_mem_lastN {α : Type} (n : ℕ) (l : List α) (a : α)
    (h : a ∈ lastN n l) : a ∈ l := List.mem_of_mem_drop h

/-- A `min`-fold is bounded by its initial accumulator. -/
theorem foldl_min_le_init (xs : List ℚ) : ∀ x : ℚ, xs.foldl min x ≤ x := by
  induction xs with
  | nil => exact fun x => le_refl x
  | cons z zs ih => exact fun x => le_trans (ih (min x z)) (min_le_left x z)

/-- A `min`-fold is bounded by every list element. -/
theorem foldl_min_le_mem (xs : List ℚ) (a : ℚ) (h : a ∈ xs) :
    ∀ x : ℚ, xs.foldl min x ≤ a := by
  induction xs with
  | nil => cases h
  | cons z zs ih =>
    intro x
    rcases List.mem_cons.mp h with rfl | hmem
    · exact le_trans (foldl_min_le_init zs (min x a)) (min_le_right x a)
    · exact ih hmem (min x z)

/-- A `max`-fold dominates its initial accumulator. -/
theorem init_le_foldl_max (xs : List ℚ) : ∀ x : ℚ, x ≤ xs.foldl max x := by
  induction xs with
  | nil => exact fun x => le_refl x
  | cons z zs ih => exact fun x => le_trans (le_max_left x z) (ih (max x z))

/-- A `max`-fold dominates every list element. -/
theorem mem_le_foldl_max (xs : List ℚ) (a : ℚ) (h : a ∈ xs) :
    ∀ x : ℚ, a ≤ xs.foldl max x := by
  induction xs with
  | nil => cases h
  | cons z zs ih =>
    intro x
    rcases List.mem_cons.mp h with rfl | hmem
    · exact le_trans (le_max_right x a) (init_le_foldl_max zs (max x a))
    · exact ih hmem (max x z)

/-- `Math.min(...)` is bounded by every element of the spread. -/
theorem mathMin_le (l : List ℚ) (a : ℚ) (h : a ∈ l) : mathMin l ≤ a := by
  match l with
  | [] => cases h
  | x :: xs =>
    show xs.foldl min x ≤ a
    rcases List.mem_cons.mp h with rfl | hmem
    · exact foldl_min_le_init xs a
    · exact foldl_min_le_mem xs a hmem x

/-- `Math.max(...)` dominates every element of the spread. -/
theorem le_mathMax (l : List ℚ) (a : ℚ) (h : a ∈ l) : a ≤ mathMax l := by
  match l with
  | [] => cases h
  | x :: xs =>
    show a ≤ xs.foldl max x
    rcases List.mem_cons.mp h with rfl | hmem
    · exact init_le_foldl_max xs a
    · exact mem_le_foldl_max xs a hmem x

/-- Checked SMA agrees with the total model whenever the fallback read can
only be taken on a non-empty list. -/
theorem calculateSMAChecked_eq (prices : List ℚ) (period : ℕ)
    (h : prices ≠ [] ∨ period ≤ prices.length) :
    calculateSMAChecked prices period = some (calculateSMA prices period) := by
  unfold calculateSMAChecked calculateSMA
  by_cases hlt : prices.length < period
  · have hne : prices ≠ [] := by
      rcases h with hne | hge
      · exact hne
      · omega
    have hpos : 0 < prices.length := List.length_pos.mpr hne
    rw [if_pos hlt, if_pos hlt, get?_eq_some_getD prices _ (by omega)]
  · rw [if_neg hlt, if_neg hlt]

/-- The checked chronological EMA fold agrees with the total model as long
as every visited index is in bounds. -/
theorem ema_foldl_checked (prices : List ℚ) (m : ℚ) :
    ∀ (cnt s : ℕ), s + cnt ≤ prices.length → ∀ e : ℚ,
    (List.range' s cnt).foldl
      (fun acc i => do
        let ema ← acc
        let p ← prices.get? i
        pure (p * m + ema * (1 - m)))
      (pure e)
    = some ((List.range' s cnt).foldl
        (fun ema i => prices.getD i 0 * m + ema * (1 - m)) e) := by
  intro cnt
  induction cnt with
  | zero => intro s _ e; rfl
  | succ n ih =>
    intro s hs e
    have hcons : List.range' s (n + 1) = s :: List.range' (s + 1) n := rfl
    rw [hcons, List.foldl_cons, List.foldl_cons]
    have hsome : (do
        let ema ← (pure e : Option ℚ)
        let p ← prices.get? s
        pure (p * m + ema * (1 - m))) =
        (pure (prices.getD s 0 * m + e * (1 - m)) : Option ℚ) := by
      rw [get?_eq_some_getD prices s (by omega)]
      rfl
    rw [hsome]
    exact ih (s + 1) (by omega) _

/-- Checked EMA agrees with the total model on non-empty input. -/
theorem calculateEMAChecked_eq (prices : List ℚ) (period : ℕ)
    (h : prices ≠ []) :
    calculateEMAChecked prices period = some (calculateEMA prices period) := by
  unfold calculateEMAChecked calculateEMA
  by_cases hlt : prices.length < period
  · have hpos : 0 < prices.length := List.length_pos.mpr h
    rw [if_pos hlt, if_pos hlt, get?_eq_some_getD prices _ (by omega)]
  · rw [if_neg hlt, if_neg hlt]
    have hseed : calculateSMAChecked (prices.take period) period =
        some (calculateSMA (prices.take period) period) := by
      refine calculateSMAChecked_eq _ _ (Or.inr ?_)
      rw [List.length_take]
      omega
    rw [hseed]
    simp only [Option.bind_eq_bind', Option.pure_def, Option.some_bind']
    exact ema_foldl_checked prices _ (prices.length - period) period (by omega) _

/-- The checked RSI delta loop agrees with the total model as long as every
visited index is in bounds. -/
theorem rsi_foldl_checked (prices : List ℚ) :
    ∀ (cnt s : ℕ), s + cnt + 1 ≤ prices.length → ∀ gl : ℚ × ℚ,
    (List.range' s cnt).foldl
      (fun acc j => do
        let gl ← acc
        let a ← prices.get? (prices.length - (j + 1))
        let b ← prices.get? (prices.length - (j + 1) - 1)
        let change := a - b
        if change > 0 then pure (gl.1 + change, gl.2)
        else pure (gl.1, gl.2 - change))
      (pure gl)
    = some ((List.range' s cnt).foldl
        (fun gl j =>
          let change := prices.getD (prices.length - (j + 1)) 0
            - prices.getD (prices.length - (j + 1) - 1) 0
          if change > 0 then (gl.1 + change, gl.2) else (gl.1, gl.2 - change))
        gl) := by
  intro cnt
  induction cnt with
  | zero => intro s _ gl; rfl
  | succ n ih =>
    intro s hs gl
    have hcons : List.range' s (n + 1) = s :: List.range' (s + 1) n := rfl
    rw [hcons, List.foldl_cons, List.foldl_cons]
    have hlen : 0 < prices.length := by omega
    rw [get?_eq_some_getD prices (prices.length - (s + 1)) (by omega),
      get?_eq_some_getD prices (prices.length - (s + 1) - 1) (by omega)]
    have hinit : (do
        let gl' ← (pure gl : Option (ℚ × ℚ))
        let a ← (some (prices.getD (prices.length - (s + 1)) 0) : Option ℚ)
        let b ← (some (prices.getD (prices.length - (s + 1) - 1) 0) : Option ℚ)
        let change := a - b
        if change > 0 then pure (gl'.1 + change, gl'.2)
        else pure (gl'.1, gl'.2 - change))
      = (pure
          (let change := prices.getD (prices.length - (s + 1)) 0
            - prices.getD (prices.length - (s + 1) - 1) 0
          if change > 0 then (gl.1 + change, gl.2)
          else (gl.1, gl.2 - change)) : Option (ℚ × ℚ)) := by
      show (if (prices.getD (prices.length - (s + 1)) 0
            - prices.getD (prices.length - (s + 1) - 1) 0 > 0) then _ else _) = _
      by_cases hchg : prices.getD (prices.length - (s + 1)) 0
          - prices.getD (prices.length - (s + 1) - 1) 0 > 0
      · rw [if_pos hchg]
        show _ = (pure (if _ > 0 then _ else _) : Option (ℚ × ℚ))
        rw [if_pos hchg]
      · rw [if_neg hchg]
        show _ = (pure (if _ > 0 then _ else _) : Option (ℚ × ℚ))
        rw [if_neg hchg]
    rw [hinit]
    exact ih (s + 1) (by omega) _

/-- Pull `some` out of a conditional. -/
theorem ite_some {α : Type} (c : Prop) [Decidable c] (a b : α) :
    (if c then (some a : Option α) else some b) = some (if c then a else b) :=
  (apply_ite some c a b).symm

/-- Checked RSI agrees with the total model on non-empty input. -/
theorem calculateRSIChecked_eq (prices : List ℚ) (period : ℕ)
    (h : prices ≠ []) :
    calculateRSIChecked prices period = some (calculateRSI prices period) := by
  unfold calculateRSIChecked calculateRSI
  by_cases hlt : prices.length < period + 1
  · rw [if_pos hlt, if_pos hlt]
  · rw [if_neg hlt, if_neg hlt, List.range_eq_range',
      rsi_foldl_checked prices period 0 (by omega) (0, 0)]
    simp only [Option.bind_eq_bind', Option.pure_def, Option.some_bind']
    rw [ite_some]

/-- Checked MACD agrees with the total model on non-empty input. -/
theorem calculateMACDChecked_eq (prices : List ℚ) (h : prices ≠ []) :
    calculateMACDChecked prices = some (calculateMACD prices) := by
  unfold calculateMACDChecked calculateMACD
  rw [calculateEMAChecked_eq prices 12 h, calculateEMAChecked_eq prices 26 h]
  simp only [Option.bind_eq_bind', Option.pure_def, Option.some_bind']
  rw [calculateEMAChecked_eq _ 9 (List.cons_ne_nil _ _)]
  simp only [Option.some_bind']

/-- Checked Bollinger bands agree with the total model on non-empty input. -/
theorem calculateBollingerBandsChecked_eq (prices : List ℚ) (period : ℕ)
    (stdDev : ℚ) (h : prices ≠ [] ∨ period ≤ prices.length) :
    calculateBollingerBandsChecked prices period stdDev =
      some (calculateBollingerBands prices period stdDev) := by
  unfold calculateBollingerBandsChecked calculateBollingerBands
  rw [calculateSMAChecked_eq prices period h]
  simp only [Option.bind_eq_bind', Option.pure_def, Option.some_bind']

/-- Checked spread minimum agrees with the total model on non-empty input. -/
theorem mathMinChecked_eq (l : List ℚ) (h : l ≠ []) :
    mathMinChecked l = some (mathMin l) := by
  cases l with
  | nil => exact absurd rfl h
  | cons x xs => rfl

/-- Checked spread maximum agrees with the total model on non-empty input. -/
theorem mathMaxChecked_eq (l : List ℚ) (h : l ≠ []) :
    mathMaxChecked l = some (mathMax l) := by
  cases l with
  | nil => exact absurd rfl h
  | cons x xs => rfl

/-! Projections of the indicator bundle, for rewriting. -/

theorem calculateTechnicalIndicators_rsi (candles : List CandlestickData) :
    (calculateTechnicalIndicators candles).rsi =
      calculateRSI (candles.map (·.close)) 14 := rfl

theorem calculateTechnicalIndicators_sma20 (candles : List CandlestickData) :
    (calculateTechnicalIndicators candles).sma20 =
      calculateSMA (candles.map (·.close)) 20 := rfl

theorem calculateTechnicalIndicators_sma50 (candles : List CandlestickData) :
    (calculateTechnicalIndicators candles).sma50 =
      calculateSMA (candles.map (·.close)) 50 := rfl

theorem calculateTechnicalIndicators_macd (candles : List CandlestickData) :
    (calculateTechnicalIndicators candles).macd =
      calculateMACD (candles.map (·.close)) := rfl

theorem calculateTechnicalIndicators_bollinger (candles : List CandlestickData) :
    (calculateTechnicalIndicators candles).bollinger =
      calculateBollingerBands (candles.map (·.close)) 20 2 := rfl

theorem calculateTechnicalIndicators_support (candles : List CandlestickData) :
    (calculateTechnicalIndicators candles).support =
      mathMin (lastN 20 (candles.map (·.low))) := rfl

theorem calculateTechnicalIndicators_resistance (candles : List CandlestickData) :
    (calculateTechnicalIndicators candles).resistance =
      mathMax (lastN 20 (candles.map (·.high))) := rfl

/-- The 60 strictly rising closes `100, 101, ..., 159` of the spec's worked
example. -/
def risingCloses : List ℚ :=
  [100, 101, 102, 103, 104, 105, 106, 107, 108, 109,
   110, 111, 112, 113, 114, 115, 116, 117, 118, 119,
   120, 121, 122, 123, 124, 125, 126, 127, 128, 129,
   130, 131, 132, 133, 134, 135, 136, 137, 138, 139,
   140, 141, 142, 143, 144, 145, 146, 147, 148, 149,
   150, 151, 152, 153, 154, 155, 156, 157, 158, 159]

/-- The worked example's candles: highs = close + 1, lows = close - 1. -/
def risingCandles : List CandlestickData :=
  risingCloses.map (fun c => ⟨0, c, c + 1, c - 1, c, 0⟩)

set_option maxRecDepth 8000

/-- C1: the claim states that on the strictly rising 60-candle series the
engine returns `sma20 = 149.5`, `sma50 = 134.5`, `RSI = 100`, **and** that
the setup generated from the latest close (159) is bullish.  The last
conjunct is false: the MACD signal always equals the MACD value, so the
strict comparison `macd.macd > macd.signal` in the bullish condition fails
and the trend classifies as sideways. -/
theorem c1_counterexample :
    (performTechnicalAnalysis 159 (calculateTechnicalIndicators risingCandles)).trend
      ≠ Trend.bullish := by
  rw [performTechnicalAnalysis_trend,
    determineTrend_of_macd_eq 159 _ (by
      rw [calculateTechnicalIndicators_macd]
      exact (calculateMACD_signal_eq _).symm)]
  simp

/-- C1 (amended): on the strictly rising 60-candle series with closes
`100..159`, highs = close + 1 and lows = close - 1, the engine returns
`sma20 = 149.5`, `sma50 = 134.5` and `RSI = 100` (the zero-average-loss
edge case), but the setup generated from the latest close classifies the
trend as sideways, not bullish, because the MACD signal line always equals
the MACD value. -/
theorem c1_amended :
    (calculateTechnicalIndicators risingCandles).sma20 = 149.5 ∧
    (calculateTechnicalIndicators risingCandles).sma50 = 134.5 ∧
    (calculateTechnicalIndicators risingCandles).rsi = 100 ∧
    (performTechnicalAnalysis 159 (calculateTechnicalIndicators risingCandles)).trend
      = Trend.sideways := by
  refine ⟨?_, ?_, ?_, ?_⟩
  · rw [calculateTechnicalIndicators_sma20]
    norm_num [calculateSMA, risingCandles, risingCloses, lastN, List.foldl]
  · rw [calculateTechnicalIndicators_sma50]
    norm_num [calculateSMA, risingCandles, risingCloses, lastN, List.foldl]
  · rw [calculateTechnicalIndicators_rsi]
    norm_num [calculateRSI, risingCandles, risingCloses, List.range_succ,
      List.foldl_append, List.foldl, List.getD]
  · rw [performTechnicalAnalysis_trend,
      determineTrend_of_macd_eq 159 _ (by
        rw [calculateTechnicalIndicators_macd]
        exact (calculateMACD_signal_eq _).symm)]

/-- C2: for every (non-empty) input close sequence, the MACD triple
satisfies `signal = macd` and `histogram = 0`, because the signal is the
EMA of the one-element history `[macd]`, which the EMA short-history
fallback returns unchanged. -/
theorem c2_signal_collapses (prices : List ℚ) (h : prices ≠ []) :
    (calculateMACD prices).signal = (calculateMACD prices).macd ∧
    (calculateMACD prices).histogram = 0 :=
  ⟨calculateMACD_signal_eq prices, calculateMACD_histogram_eq_zero prices⟩

/-- C2 witness: the collapse at the concrete one-element series `[100]`. -/
theorem c2_signal_collapses_witness :
    (([100] : List ℚ) ≠ []) ∧
    ((calculateMACD [100]).signal = (calculateMACD [100]).macd ∧
     (calculateMACD [100]).histogram = 0) :=
  ⟨by simp, c2_signal_collapses [100] (by simp)⟩

/-- C3: every bundle the engine produces has `macd.macd = macd.signal`, so
both strict MACD comparisons fail, and every setup generated from such a
bundle is sideways with confidence 45 — the bullish and bearish branches
are unreachable in the composed pipeline. -/
theorem c3_pipeline_always_sideways (candles : List CandlestickData)
    (h : candles ≠ []) (price : ℚ) :
    (calculateTechnicalIndicators candles).macd.macd
      = (calculateTechnicalIndicators candles).macd.signal ∧
    (performTechnicalAnalysis price (calculateTechnicalIndicators candles)).trend
      = Trend.sideways ∧
    (performTechnicalAnalysis price (calculateTechnicalIndicators candles)).confidence
      = 45 := by
  have hmacd : (calculateTechnicalIndicators candles).macd.macd
      = (calculateTechnicalIndicators candles).macd.signal := by
    rw [calculateTechnicalIndicators_macd]
    exact (calculateMACD_signal_eq _).symm
  have htrend := determineTrend_of_macd_eq price _ hmacd
  refine ⟨hmacd, ?_, ?_⟩
  · rw [performTechnicalAnalysis_trend]
    exact htrend
  · rw [performTechnicalAnalysis_sideways price _ htrend]
    rfl

/-- C3 witness: the pipeline collapse at a concrete one-candle series and
price 100. -/
theorem c3_pipeline_always_sideways_witness :
    (([⟨0, 100, 101, 99, 100, 0⟩] : List CandlestickData) ≠ []) ∧
    ((calculateTechnicalIndicators [⟨0, 100, 101, 99, 100, 0⟩]).macd.macd
      = (calculateTechnicalIndicators [⟨0, 100, 101, 99, 100, 0⟩]).macd.signal ∧
     (performTechnicalAnalysis 100
        (calculateTechnicalIndicators [⟨0, 100, 101, 99, 100, 0⟩])).trend
      = Trend.sideways ∧
     (performTechnicalAnalysis 100
        (calculateTechnicalIndicators [⟨0, 100, 101, 99, 100, 0⟩])).confidence
      = 45) :=
  ⟨by simp, c3_pipeline_always_sideways [⟨0, 100, 101, 99, 100, 0⟩] (by simp) 100⟩

/-- A sideways-trending bundle with distinct support (90) and
resistance (110): price 100 sits exactly on both moving averages. -/
def sampleBundleC4 : TechnicalIndicators :=
  ⟨50, ⟨0, 0, 0⟩, 100, 100, 100, ⟨110, 100, 90⟩, 90, 110⟩

/-- C4: the claim says a sideways setup has `stopLoss = support`,
`takeProfit1 = resistance`, `takeProfit2 = resistance * 1.02`.  The code's
sideways branch instead tests `trend === 'bullish'`, which is always false
there, so it emits `stopLoss = resistance`, `takeProfit1 = support`,
`takeProfit2 = support * 0.98`.  Evaluated at price 100 with support 90 and
resistance 110: the claim expects stopLoss 90, takeProfit1 110,
takeProfit2 112.2, the code yields 110, 90 and 88.2. -/
theorem c4_sideways_eval :
    (performTechnicalAnalysis 100 sampleBundleC4).trend = Trend.sideways ∧
    (performTechnicalAnalysis 100 sampleBundleC4).entry = 100 ∧
    (performTechnicalAnalysis 100 sampleBundleC4).stopLoss = 110 ∧
    (performTechnicalAnalysis 100 sampleBundleC4).takeProfit1 = 90 ∧
    (performTechnicalAnalysis 100 sampleBundleC4).takeProfit2 = 88.2 := by
  have htrend : determineTrend 100 sampleBundleC4 = Trend.sideways := by
    norm_num [determineTrend, sampleBundleC4]
  rw [performTechnicalAnalysis_sideways 100 _ htrend]
  refine ⟨rfl, ?_, ?_, ?_, ?_⟩ <;> norm_num [mkSetup, sampleBundleC4]

/-- A sideways-trending bundle whose resistance equals the price, so the
generated setup has `entry = stopLoss` (zero-width stop distance). -/
def sampleBundleC5 : TechnicalIndicators :=
  ⟨50, ⟨0, 0, 0⟩, 100, 100, 100, ⟨105, 100, 95⟩, 90, 100⟩

/-- C5: the claim says a zero-width stop distance (`entry = stopLoss`) is
signalled with a distinguishable sentinel.  The code has no sentinel: it
always computes the plain quotient `|takeProfit1 - entry| / |entry -
stopLoss|`.  At price 100 with resistance 100 the sideways setup has
`entry = stopLoss = 100` and a non-degenerate numerator (takeProfit1 is
90), and `riskReward` is just the raw division-by-zero result — `0` under
this embedding's total division, `Infinity` under IEEE floats — an
ordinary value of the numeric type, not a distinguishable marker. -/
theorem c5_zero_stop_eval :
    (performTechnicalAnalysis 100 sampleBundleC5).entry
      = (performTechnicalAnalysis 100 sampleBundleC5).stopLoss ∧
    (performTechnicalAnalysis 100 sampleBundleC5).takeProfit1
      ≠ (performTechnicalAnalysis 100 sampleBundleC5).entry ∧
    (performTechnicalAnalysis 100 sampleBundleC5).riskReward = 0 := by
  have htrend : determineTrend 100 sampleBundleC5 = Trend.sideways := by
    norm_num [determineTrend, sampleBundleC5]
  rw [performTechnicalAnalysis_sideways 100 _ htrend]
  refine ⟨?_, ?_, ?_⟩ <;> norm_num [mkSetup, sampleBundleC5]

/-- Closed form of the bullish branch of the setup generator. -/
theorem performTechnicalAnalysis_bullish (p : ℚ) (ind : TechnicalIndicators)
    (h : determineTrend p ind = Trend.bullish) :
    performTechnicalAnalysis p ind =
      mkSetup ((p * 1.002 : ℚ) : ℝ)
        (max (max ((ind.support : ℚ) : ℝ) ind.bollinger.lower)
          ((p * 0.95 : ℚ) : ℝ))
        (min (min ((ind.resistance : ℚ) : ℝ) ind.bollinger.upper)
          ((p * 1.08 : ℚ) : ℝ))
        ((p * 1.15 : ℚ) : ℝ)
        (calculateConfidence
          [if ind.rsi < 70 then 20 else 0,
           if ind.macd.macd > ind.macd.signal then 25 else 0,
           if p > ind.sma20 then 20 else 0,
           if ind.sma20 > ind.sma50 then 15 else 0,
           if ((p : ℚ) : ℝ) > ind.bollinger.middle then 20 else 0])
        Trend.bullish := by
  unfold performTechnicalAnalysis
  simp [h]

/-- Closed form of the bearish branch of the setup generator. -/
theorem performTechnicalAnalysis_bearish (p : ℚ) (ind : TechnicalIndicators)
    (h : determineTrend p ind = Trend.bearish) :
    performTechnicalAnalysis p ind =
      mkSetup ((p * 0.998 : ℚ) : ℝ)
        (min (min ((ind.resistance : ℚ) : ℝ) ind.bollinger.upper)
          ((p * 1.05 : ℚ) : ℝ))
        (max (max ((ind.support : ℚ) : ℝ) ind.bollinger.lower)
          ((p * 0.92 : ℚ) : ℝ))
        ((p * 0.85 : ℚ) : ℝ)
        (calculateConfidence
          [if ind.rsi > 30 then 20 else 0,
           if ind.macd.macd < ind.macd.signal then 25 else 0,
           if p < ind.sma20 then 20 else 0,
           if ind.sma20 < ind.sma50 then 15 else 0,
           if ((p : ℚ) : ℝ) < ind.bollinger.middle then 20 else 0])
        Trend.bearish := by
  unfold performTechnicalAnalysis
  simp [h]

/-- A bundle on which the trend classifier lands in the sideways branch,
used to instantiate the confidence-range claim. -/
def sampleBundleC6 : TechnicalIndicators :=
  ⟨50, ⟨0, 0, 0⟩, 100, 100, 100, ⟨105, 100, 95⟩, 90, 110⟩

/-- C6: for every current price and indicator bundle, the confidence of the
generated setup lies in `[25, 95]`, and a sideways setup has confidence
exactly 45. -/
theorem c6_confidence_range (price : ℚ) (ind : TechnicalIndicators) :
    (25 ≤ (performTechnicalAnalysis price ind).confidence ∧
     (performTechnicalAnalysis price ind).confidence ≤ 95) ∧
    ((performTechnicalAnalysis price ind).trend = Trend.sideways →
     (performTechnicalAnalysis price ind).confidence = 45) := by
  rcases htrend : determineTrend price ind with _ | _ | _
  · rw [performTechnicalAnalysis_bullish price ind htrend]
    refine ⟨calculateConfidence_bounds _, fun hside => ?_⟩
    exact absurd hside (by simp [mkSetup])
  · rw [performTechnicalAnalysis_bearish price ind htrend]
    refine ⟨calculateConfidence_bounds _, fun hside => ?_⟩
    exact absurd hside (by simp [mkSetup])
  · rw [performTechnicalAnalysis_sideways price ind htrend]
    exact ⟨⟨by norm_num [mkSetup], by norm_num [mkSetup]⟩, fun _ => rfl⟩

/-- C6 witness: the bounds at the concrete price 100 and sample bundle
(a sideways case, so the implication's antecedent also holds and the
confidence is 45). -/
theorem c6_confidence_range_witness :
    (25 ≤ (performTechnicalAnalysis 100 sampleBundleC6).confidence ∧
     (performTechnicalAnalysis 100 sampleBundleC6).confidence ≤ 95) ∧
    ((performTechnicalAnalysis 100 sampleBundleC6).trend = Trend.sideways →
     (performTechnicalAnalysis 100 sampleBundleC6).confidence = 45) :=
  c6_confidence_range 100 sampleBundleC6

/-- C7: for every non-empty candle series, the Bollinger bands of the
produced bundle satisfy `lower ≤ middle ≤ upper` (the standard deviation is
a square root, hence non-negative, and the width multiplier is 2). -/
theorem c7_bollinger_ordered (candles : List CandlestickData)
    (h : candles ≠ []) :
    (calculateTechnicalIndicators candles).bollinger.lower
      ≤ (calculateTechnicalIndicators candles).bollinger.middle ∧
    (calculateTechnicalIndicators candles).bollinger.middle
      ≤ (calculateTechnicalIndicators candles).bollinger.upper := by
  rw [calculateTechnicalIndicators_bollinger]
  exact ⟨sub_le_self _ (mul_nonneg (Real.sqrt_nonneg _) (by norm_num)),
    le_add_of_nonneg_right (mul_nonneg (Real.sqrt_nonneg _) (by norm_num))⟩

/-- C7 witness: the band ordering at a concrete one-candle series. -/
theorem c7_bollinger_ordered_witness :
    (([⟨0, 100, 101, 99, 100, 0⟩] : List CandlestickData) ≠ []) ∧
    ((calculateTechnicalIndicators [⟨0, 100, 101, 99, 100, 0⟩]).bollinger.lower
      ≤ (calculateTechnicalIndicators [⟨0, 100, 101, 99, 100, 0⟩]).bollinger.middle ∧
     (calculateTechnicalIndicators [⟨0, 100, 101, 99, 100, 0⟩]).bollinger.middle
      ≤ (calculateTechnicalIndicators [⟨0, 100, 101, 99, 100, 0⟩]).bollinger.upper) :=
  ⟨by simp, c7_bollinger_ordered [⟨0, 100, 101, 99, 100, 0⟩] (by simp)⟩

/-- C8: for every non-empty series whose candles all satisfy `low ≤ high`,
the bundle satisfies `support ≤ resistance` (minimum of the last 20 lows
against maximum of the last 20 highs). -/
theorem c8_support_le_resistance (candles : List CandlestickData)
    (h : candles ≠ []) (hlh : ∀ c ∈ candles, c.low ≤ c.high) :
    (calculateTechnicalIndicators candles).support
      ≤ (calculateTechnicalIndicators candles).resistance := by
  rw [calculateTechnicalIndicators_support,
    calculateTechnicalIndicators_resistance, lastN_map, lastN_map]
  have ht : lastN 20 candles ≠ [] := lastN_ne_nil 20 candles (by norm_num) h
  obtain ⟨c, hc⟩ := List.exists_mem_of_ne_nil (lastN 20 candles) ht
  calc mathMin ((lastN 20 candles).map (·.low))
      ≤ c.low := mathMin_le _ _ (List.mem_map_of_mem _ hc)
    _ ≤ c.high := hlh c (mem_of_mem_lastN 20 candles c hc)
    _ ≤ mathMax ((lastN 20 candles).map (·.high)) :=
        le_mathMax _ _ (List.mem_map_of_mem _ hc)

/-- C8 witness: `support ≤ resistance` at a concrete one-candle series. -/
theorem c8_support_le_resistance_witness :
    (([⟨0, 100, 101, 99, 100, 0⟩] : List CandlestickData) ≠ [] ∧
     ∀ c ∈ ([⟨0, 100, 101, 99, 100, 0⟩] : List CandlestickData), c.low ≤ c.high) ∧
    (calculateTechnicalIndicators [⟨0, 100, 101, 99, 100, 0⟩]).support
      ≤ (calculateTechnicalIndicators [⟨0, 100, 101, 99, 100, 0⟩]).resistance :=
  ⟨⟨by simp, by
      intro c hc
      rw [List.mem_singleton] at hc
      subst hc
      norm_num⟩,
   c8_support_le_resistance [⟨0, 100, 101, 99, 100, 0⟩] (by simp) (by
      intro c hc
      rw [List.mem_singleton] at hc
      subst hc
      norm_num)⟩

/-- C9: on a non-empty close sequence shorter than an indicator's lookback,
that indicator returns its documented fallback — RSI (period 14) returns 50
when fewer than 15 closes exist, and SMA and EMA return the most recent
close for **every** period exceeding the sequence length. -/
theorem c9_short_history_fallbacks (prices : List ℚ) (h : prices ≠ []) :
    (prices.length < 15 → calculateRSI prices 14 = 50) ∧
    (∀ period : ℕ, prices.length < period →
      calculateSMA prices period = prices.getLast h ∧
      calculateEMA prices period = prices.getLast h) := by
  refine ⟨fun hr => ?_, fun period hshort => ⟨?_, ?_⟩⟩
  · unfold calculateRSI
    rw [if_pos (by omega)]
  · unfold calculateSMA
    rw [if_pos hshort]
    exact getD_length_sub_one prices 0 h
  · unfold calculateEMA
    rw [if_pos hshort]
    exact getD_length_sub_one prices 0 h

/-- A 20-close series: long enough that RSI's neutral fallback does not
apply, yet shorter than the SMA(50) and EMA(26) lookbacks. -/
def rising20 : List ℚ :=
  [1, 2, 3, 4, 5, 6, 7, 8, 9, 10, 11, 12, 13, 14, 15, 16, 17, 18, 19, 20]

/-- C9 witness: the RSI fallback on the two-close series `[1, 2]`, and the
SMA/EMA fallbacks on the concrete 20-close series `rising20` against the
larger lookbacks 50 and 26 (a case with 15 ≤ length < period). -/
theorem c9_short_history_fallbacks_witness :
    (([1, 2] : List ℚ) ≠ [] ∧ ([1, 2] : List ℚ).length < 15 ∧
     rising20 ≠ [] ∧ rising20.length < 50 ∧ rising20.length < 26) ∧
    (calculateRSI [1, 2] 14 = 50 ∧
     calculateSMA rising20 50 = rising20.getLast (by simp [rising20]) ∧
     calculateEMA rising20 26 = rising20.getLast (by simp [rising20])) :=
  ⟨⟨by simp, by simp, by simp [rising20], by simp [rising20],
    by simp [rising20]⟩,
   (c9_short_history_fallbacks [1, 2] (by simp)).1 (by simp),
   ((c9_short_history_fallbacks rising20 (by simp [rising20])).2 50
     (by simp [rising20])).1,
   ((c9_short_history_fallbacks rising20 (by simp [rising20])).2 26
     (by simp [rising20])).2⟩

/-- C10: on every non-empty candle series the bounds-checked engine — in
which every JavaScript array read is modelled as a checked lookup and an
empty extrema spread surfaces as a failure — succeeds and returns exactly
the total model's bundle: `calculateTechnicalIndicators` never reads out of
bounds and never fails for non-empty input. -/
theorem c10_never_fails (candles : List CandlestickData) (h : candles ≠ []) :
    calculateTechnicalIndicatorsChecked candles
      = some (calculateTechnicalIndicators candles) := by
  have hcl : candles.map (·.close) ≠ [] := by simpa using h
  have hlo : lastN 20 (candles.map (·.low)) ≠ [] :=
    lastN_ne_nil 20 _ (by norm_num) (by simpa using h)
  have hhi : lastN 20 (candles.map (·.high)) ≠ [] :=
    lastN_ne_nil 20 _ (by norm_num) (by simpa using h)
  unfold calculateTechnicalIndicatorsChecked calculateTechnicalIndicators
  simp only [calculateRSIChecked_eq _ 14 hcl,
    calculateSMAChecked_eq _ 20 (Or.inl hcl),
    calculateSMAChecked_eq _ 50 (Or.inl hcl),
    calculateEMAChecked_eq _ 20 hcl,
    calculateMACDChecked_eq _ hcl,
    calculateBollingerBandsChecked_eq _ 20 2 (Or.inl hcl),
    mathMinChecked_eq _ hlo, mathMaxChecked_eq _ hhi,
    Option.bind_eq_bind', Option.pure_def, Option.some_bind']

/-- C10 witness: the checked engine succeeds on a concrete one-candle
series. -/
theorem c10_never_fails_witness :
    (([⟨0, 100, 101, 99, 100, 0⟩] : List CandlestickData) ≠ []) ∧
    calculateTechnicalIndicatorsChecked [⟨0, 100, 101, 99, 100, 0⟩]
      = some (calculateTechnicalIndicators [⟨0, 100, 101, 99, 100, 0⟩]) :=
  ⟨by simp, c10_never_fails [⟨0, 100, 101, 99, 100, 0⟩] (by simp)⟩
